import Mathlib

/-!
Verification development for the heat-pump repository.

The file shallowly embeds the numeric core of `src/hp_app.py` over `ℝ`
(Python float arithmetic, `x ** y` becoming `Real.rpow`), the
characteristic-curve interpolation and KPI block of `src/app.py` over `ℚ`,
a name-resolution model for the module-level/local namespaces of
`src/simulation.py` and `src/simulation.py.py`, and a small model of the
design/off-design orchestrator that the spec describes (the equation
solver itself lives in the external TESPy library, not under `src/`).
-/

set_option linter.unusedVariables false

namespace HpApp

/-- The `Refrigerant` enum of `hp_app.py`. -/
inductive Refrigerant
  | PROPANE
  | ISOBUTANE
  | PROPYLENE
  | AMMONIA
  | CO2
deriving DecidableEq

/-- The `RefrigerantProperties` dataclass of `hp_app.py` (numeric fields only;
the display name is irrelevant to the computations). -/
structure RefrigerantProperties where
  critical_temp : ℝ
  critical_pressure : ℝ
  boiling_point : ℝ
  molecular_weight : ℝ
  cp_cv_ratio : ℝ
  antoine_a : ℝ
  antoine_b : ℝ
  antoine_c : ℝ
  acentric_factor : ℝ
  specific_heat_vapor : ℝ

/-- The `REFRIGERANT_PROPERTIES` table of `hp_app.py`. -/
def REFRIGERANT_PROPERTIES : Refrigerant → RefrigerantProperties
  | .PROPANE => ⟨96.74, 42.51, -42.1, 44.1, 1.13, 15.726, 1872.46, -25.16, 0.152, 1.67⟩
  | .ISOBUTANE => ⟨134.66, 36.40, -11.7, 58.12, 1.10, 15.854, 2348.67, -27.85, 0.181, 1.66⟩
  | .PROPYLENE => ⟨91.06, 45.55, -47.6, 42.08, 1.15, 15.7027, 1807.53, -26.15, 0.146, 1.53⟩
  | .AMMONIA => ⟨132.25, 113.33, -33.34, 17.03, 1.31, 16.9481, 2132.50, -32.98, 0.256, 2.06⟩
  | .CO2 => ⟨31.06, 73.77, -78.46, 44.01, 1.30, 22.5898, 3103.39, -0.16, 0.225, 0.844⟩

/-- The `h_fg_ref` table inside `calculate_latent_heat`. -/
def h_fg_ref : Refrigerant → ℝ
  | .PROPANE => 425
  | .ISOBUTANE => 367
  | .PROPYLENE => 439
  | .AMMONIA => 1369
  | .CO2 => 234

/-- The attribute block set in `HeatPumpCalculator.__init__`. -/
structure HeatPumpCalculator where
  compressor_efficiency : ℝ := 0.75
  mechanical_efficiency : ℝ := 0.95
  heat_exchanger_effectiveness : ℝ := 0.85
  pressure_drop_ratio : ℝ := 0.02

/-- `HeatPumpCalculator.calculate_saturation_pressure` (hp_app.py lines 123-151).
CO2 above 25 degC takes the Wagner branch; any temperature below -200 returns the
constant `0.001`; otherwise the Antoine-style expression is evaluated with `temp`
in degrees Celsius and a base-10 exponential (`10 ** log_p_mmhg`). -/
noncomputable def calculate_saturation_pressure (temp : ℝ) (refrigerant : Refrigerant) : ℝ :=
  let props := REFRIGERANT_PROPERTIES refrigerant
  if refrigerant = .CO2 ∧ 25 < temp then
    let Tr := (temp + 273.15) / (props.critical_temp + 273.15)
    let tau := 1 - Tr
    if tau ≤ 0 then props.critical_pressure
    else
      let ln_pr := (-7.0602 * tau ^ (1 : ℝ) + 1.9391 * tau ^ (1.5 : ℝ)
        + -1.6463 * tau ^ (2 : ℝ) + -3.2995 * tau ^ (4 : ℝ)) / Tr
      props.critical_pressure * Real.exp ln_pr
  else if temp < -200 then 0.001
  else
    let log_p_mmhg := props.antoine_a - props.antoine_b / (props.antoine_c + temp)
    let p_mmhg := (10 : ℝ) ^ log_p_mmhg
    p_mmhg * 0.00133322

/-- `HeatPumpCalculator.calculate_enthalpy_change` (hp_app.py lines 153-182).
Note that the code's "departure" term multiplies by `T1` in degrees Celsius. -/
noncomputable def calculate_enthalpy_change (T1 T2 P1 P2 : ℝ) (refrigerant : Refrigerant)
    (is_vapor : Bool) : ℝ :=
  let props := REFRIGERANT_PROPERTIES refrigerant
  if is_vapor then
    let cp := props.specific_heat_vapor
    let R := 8.314 / props.molecular_weight
    let dh_temp := cp * (T2 - T1)
    let Tr1 := (T1 + 273.15) / (props.critical_temp + 273.15)
    let Tr2 := (T2 + 273.15) / (props.critical_temp + 273.15)
    let Pr1 := P1 / props.critical_pressure
    let Pr2 := P2 / props.critical_pressure
    let Z1 := 1 - 0.08 * Pr1 / Tr1
    let Z2 := 1 - 0.08 * Pr2 / Tr2
    let dh_pressure := R * T1 * (Z2 - Z1)
    dh_temp + dh_pressure
  else
    props.specific_heat_vapor * 0.5 * (T2 - T1)

/-- `HeatPumpCalculator.calculate_latent_heat` (hp_app.py lines 184-207). -/
noncomputable def calculate_latent_heat (temp : ℝ) (refrigerant : Refrigerant) : ℝ :=
  let props := REFRIGERANT_PROPERTIES refrigerant
  if props.critical_temp ≤ temp then 0
  else
    let Tr := (temp + 273.15) / (props.critical_temp + 273.15)
    let Tr_ref := (props.boiling_point + 273.15) / (props.critical_temp + 273.15)
    let n := (0.38 : ℝ)
    max 0 (h_fg_ref refrigerant * ((1 - Tr) / (1 - Tr_ref)) ^ n)

/-- The compressor energy balance of `calculate_cop_real` (hp_app.py lines
235-245), abstracted over its local inputs: the polytropic discharge-temperature
estimate followed by `calculate_enthalpy_change` on the vapor branch. -/
noncomputable def compressor_enthalpy_rise (eta T1 p_evap_out p_cond_in : ℝ)
    (refrigerant : Refrigerant) : ℝ :=
  let props := REFRIGERANT_PROPERTIES refrigerant
  let gamma := props.cp_cv_ratio
  let n := 1 + (gamma - 1) / (gamma * eta)
  let T1_K := T1 + 273.15
  let T2_K := T1_K * (p_cond_in / p_evap_out) ^ ((n - 1) / n)
  let T2 := T2_K - 273.15
  calculate_enthalpy_change T1 T2 p_evap_out p_cond_in refrigerant true

/-- Modelled from the spec: the "ideal isentropic enthalpy rise (computed via the
fluid provider at outlet pressure and inlet entropy)" of spec section 4.2.  The
repository has no entropy function; under the ideal-gas vapor model that
`calculate_enthalpy_change` itself uses, an isentropic compression from
`(T1, p_in)` to `p_out` has discharge temperature
`T1_K * (p_out / p_in) ^ ((gamma - 1) / gamma)`, and the ideal rise is the
enthalpy change evaluated at that discharge state. -/
noncomputable def isentropic_enthalpy_rise (T1 p_in p_out : ℝ)
    (refrigerant : Refrigerant) : ℝ :=
  let props := REFRIGERANT_PROPERTIES refrigerant
  let gamma := props.cp_cv_ratio
  let T1_K := T1 + 273.15
  let T2s_K := T1_K * (p_out / p_in) ^ ((gamma - 1) / gamma)
  let T2s := T2s_K - 273.15
  calculate_enthalpy_change T1 T2s p_in p_out refrigerant true

/-- The result dictionary of the subcritical branch of `calculate_cop_real`
(hp_app.py lines 277-290). -/
structure CopResult where
  cop_heating : ℝ
  cop_cooling : ℝ
  cop_carnot : ℝ
  carnot_efficiency : ℝ
  pressure_ratio : ℝ
  evaporator_pressure : ℝ
  condenser_pressure : ℝ
  discharge_temp : ℝ
  volumetric_efficiency : ℝ
  compressor_work : ℝ
  heating_capacity : ℝ
  cooling_capacity : ℝ

/-- The result dictionary of `_calculate_cop_transcritical_co2`
(hp_app.py lines 331-341). -/
structure CopTransResult where
  cop_heating : ℝ
  cop_cooling : ℝ
  cop_carnot : ℝ
  carnot_efficiency : ℝ
  pressure_ratio : ℝ
  evaporator_pressure : ℝ
  gas_cooler_pressure : ℝ
  discharge_temp : ℝ

/-- Possible outcomes of `calculate_cop_real`: the subcritical dictionary, the
transcritical CO2 dictionary, or the `ValueError` raised for a non-CO2 fluid
whose condenser temperature reaches the critical temperature. -/
inductive CopOutcome
  | subcritical (r : CopResult)
  | transcritical (r : CopTransResult)
  | valueError

/-- `HeatPumpCalculator._calculate_cop_transcritical_co2` (hp_app.py lines 292-341). -/
noncomputable def calculate_cop_transcritical_co2 (c : HeatPumpCalculator)
    (t_evap t_gas_cooler subcooling superheat : ℝ) : CopTransResult :=
  let p_evap := calculate_saturation_pressure t_evap .CO2
  let p_gc_opt := 2.778 * t_gas_cooler + 34.4
  let p_gc := min p_gc_opt 120
  let pressure_ratio := p_gc / p_evap
  let props := REFRIGERANT_PROPERTIES .CO2
  let gamma := props.cp_cv_ratio
  let n := 1 + (gamma - 1) / (gamma * c.compressor_efficiency)
  let T1_K := t_evap + superheat + 273.15
  let T2_K := T1_K * pressure_ratio ^ ((n - 1) / n)
  let T2 := T2_K - 273.15
  let COP_base := 4.0 - 0.03 * (t_gas_cooler - t_evap)
  let COP_heating := COP_base * (1 - 0.05 * Real.log pressure_ratio)
  let COP_heating_real := COP_heating * c.mechanical_efficiency * c.heat_exchanger_effectiveness
  let COP_cooling_real := (COP_heating - 1) * c.mechanical_efficiency * c.heat_exchanger_effectiveness
  let T_evap_K := t_evap + 273.15
  let T_m := (T2_K + t_gas_cooler + 273.15) / 2
  let COP_carnot_trans := T_m / (T_m - T_evap_K) * 0.6
  { cop_heating := COP_heating_real
    cop_cooling := COP_cooling_real
    cop_carnot := COP_carnot_trans
    carnot_efficiency := COP_heating_real / COP_carnot_trans
    pressure_ratio := pressure_ratio
    evaporator_pressure := p_evap
    gas_cooler_pressure := p_gc
    discharge_temp := T2 }

/-- `HeatPumpCalculator.calculate_cop_real` (hp_app.py lines 209-290). -/
noncomputable def calculate_cop_real (c : HeatPumpCalculator) (t_evap t_cond : ℝ)
    (refrigerant : Refrigerant) (subcooling superheat : ℝ) : CopOutcome :=
  let props := REFRIGERANT_PROPERTIES refrigerant
  if props.critical_temp ≤ t_cond then
    if refrigerant = .CO2 then
      .transcritical (calculate_cop_transcritical_co2 c t_evap t_cond subcooling superheat)
    else .valueError
  else
    let p_evap := calculate_saturation_pressure t_evap refrigerant
    let p_cond := calculate_saturation_pressure t_cond refrigerant
    let p_evap_out := p_evap * (1 - c.pressure_drop_ratio)
    let p_cond_in := p_cond * (1 + c.pressure_drop_ratio)
    let T1 := t_evap + superheat
    let T3 := t_cond - subcooling
    let gamma := props.cp_cv_ratio
    let n := 1 + (gamma - 1) / (gamma * c.compressor_efficiency)
    let T1_K := T1 + 273.15
    let T2_K := T1_K * (p_cond_in / p_evap_out) ^ ((n - 1) / n)
    let T2 := T2_K - 273.15
    let h_comp := calculate_enthalpy_change T1 T2 p_evap_out p_cond_in refrigerant true
    let h_desuper := props.specific_heat_vapor * (T2 - t_cond)
    let h_fg_cond := calculate_latent_heat t_cond refrigerant
    let h_subcool := props.specific_heat_vapor * 0.5 * subcooling
    let q_cond := h_desuper + h_fg_cond + h_subcool
    let h_fg_evap := calculate_latent_heat t_evap refrigerant
    let h_superheat := props.specific_heat_vapor * superheat
    let q_evap := h_fg_evap + h_superheat
    let COP_heating := if 0 < h_comp then q_cond / h_comp else 0
    let COP_cooling := if 0 < h_comp then q_evap / h_comp else 0
    let COP_heating_real := COP_heating * c.mechanical_efficiency * c.heat_exchanger_effectiveness
    let COP_cooling_real := COP_cooling * c.mechanical_efficiency * c.heat_exchanger_effectiveness
    let T_evap_K := t_evap + 273.15
    let T_cond_K := t_cond + 273.15
    let COP_carnot := T_cond_K / (T_cond_K - T_evap_K)
    let clearance_ratio := (0.05 : ℝ)
    let vol_eff := 1 - clearance_ratio * ((p_cond_in / p_evap_out) ^ (1 / gamma) - 1)
    .subcritical
      { cop_heating := COP_heating_real
        cop_cooling := COP_cooling_real
        cop_carnot := COP_carnot
        carnot_efficiency := COP_heating_real / COP_carnot
        pressure_ratio := p_cond_in / p_evap_out
        evaporator_pressure := p_evap
        condenser_pressure := p_cond
        discharge_temp := T2
        volumetric_efficiency := vol_eff
        compressor_work := h_comp
        heating_capacity := q_cond
        cooling_capacity := q_evap }

/-- Projection: the `cop_heating` entry of whichever dictionary
`calculate_cop_real` returned (`none` for the `ValueError` outcome). -/
def copHeating : CopOutcome → Option ℝ
  | .subcritical r => some r.cop_heating
  | .transcritical r => some r.cop_heating
  | .valueError => none

/-- Projection: the `cop_carnot` entry of whichever dictionary
`calculate_cop_real` returned. -/
def copCarnot : CopOutcome → Option ℝ
  | .subcritical r => some r.cop_carnot
  | .transcritical r => some r.cop_carnot
  | .valueError => none

end HpApp

namespace App

/-- `np.clip(x, lo, hi)` for scalars (used by `_interp` in app.py line 44):
values below `lo` become `lo`, values above `hi` become `hi`. -/
def np_clip (x lo hi : ℚ) : ℚ := min (max x lo) hi

/-- The minimum of a list (`np.min(xp)` for the nonempty arrays `_interp` is
called on). -/
def listMin : List ℚ → ℚ
  | [] => 0
  | [a] => a
  | a :: b :: t => min a (listMin (b :: t))

/-- The maximum of a list (`np.max(xp)`). -/
def listMax : List ℚ → ℚ
  | [] => 0
  | [a] => a
  | a :: b :: t => max a (listMax (b :: t))

/-- `np.interp(x, xp, fp)` for an input already inside `[xp.head, xp.last]` and
increasing `xp`: walk the tabulated points and apply straight-line interpolation
on the first segment whose right endpoint is `≥ x`. -/
def interpPoints : ℚ → List ℚ → List ℚ → ℚ
  | _, [], _ => 0
  | _, _ :: _, [] => 0
  | _, [_], y1 :: _ => y1
  | x, x1 :: x2 :: xt, y1 :: yt =>
      match yt with
      | [] => y1
      | y2 :: yt2 =>
          if x ≤ x2 then y1 + (y2 - y1) * (x - x1) / (x2 - x1)
          else interpPoints x (x2 :: xt) (y2 :: yt2)

/-- `_interp(x, xp, fp)` (app.py lines 43-45): clamp `x` to
`[np.min(xp), np.max(xp)]`, then `np.interp`. -/
def interp (x : ℚ) (xp fp : List ℚ) : ℚ :=
  interpPoints (np_clip x (listMin xp) (listMax xp)) xp fp

/-- `StaticCompressorMap.eta_s` (app.py lines 72-73): interpolate the efficiency
curve when the map is nonempty, otherwise fall back to the default. -/
def eta_s (pr_vals eta_vals : List ℚ) (pr default_eta : ℚ) : ℚ :=
  if pr_vals.length ≠ 0 then interp pr pr_vals eta_vals else default_eta

/-- The `PR` array of the built-in `Solid_Default` compressor map (app.py lines 31-35). -/
def solidDefaultPR : List ℚ := [1.2, 1.5, 2.0, 2.5, 3.0, 3.5]

/-- The `ETA_S` array of the built-in `Solid_Default` compressor map. -/
def solidDefaultETA : List ℚ := [0.68, 0.73, 0.78, 0.80, 0.79, 0.76]

/-- The fields of `HPResults` that the KPI block of `HeatPumpTESPy.run` fills in
(app.py lines 269-273 and 291-295). -/
structure KPI where
  cop : Option ℚ
  q_out_kW : ℚ
  w_comp_kW : ℚ
  w_pumps_kW : ℚ

/-- The KPI block of `HeatPumpTESPy.run` (app.py lines 269-273).  The component
power values are modelled as `Option ℚ` where the code applies `or 0.0` (a
Python `None` becomes `0.0`); the second compressor's power is only read when
`two_stage` is set.  `cop` is `q_out / w_in` guarded by `w_in > 0`, else `None`. -/
def computeKPIs (Q_cons : ℚ) (P_cp1 : Option ℚ) (two_stage : Bool) (P_cp2 : ℚ)
    (P_rp P_hsp : Option ℚ) : KPI :=
  let q_out := |Q_cons| / 1000
  let w_comp := (P_cp1.getD 0 + (if two_stage then P_cp2 else 0)) / 1000
  let w_pumps := (P_rp.getD 0 + P_hsp.getD 0) / 1000
  let w_in := w_comp + w_pumps
  { cop := if 0 < w_in then some (q_out / w_in) else none
    q_out_kW := q_out
    w_comp_kW := w_comp
    w_pumps_kW := w_pumps }

end App

namespace Sim

/-- Result of executing a piece of Python code: a normal value, or an uncaught
`NameError` carrying the unresolvable name. -/
inductive PyOutcome (α : Type)
  | ok : α → PyOutcome α
  | nameError : String → PyOutcome α
deriving DecidableEq

/-- The Python builtins consulted after module globals (relevant subset; `os` is
not a builtin). -/
def pyBuiltins : List String :=
  ["abs", "print", "sum", "min", "max", "len", "float", "range", "list", "dict"]

/-- Names bound at module level in `src/simulation.py`: the imported names of
lines 3-10 plus the module-level definitions `fluid_defaults` and
`run_simulation`.  There is no `import os`. -/
def simulationModuleGlobals : List String :=
  ["Network", "Source", "Sink", "Pump", "Compressor", "Valve", "HeatExchanger",
   "CycleCloser", "Connection", "CharLine", "PropsSI", "NamedTemporaryFile",
   "fluid_defaults", "run_simulation"]

/-- Local names bound inside `run_simulation` (simulation.py lines 18-95) by the
time control reaches the `os.remove(path)` call on line 97: the five parameters,
the components, the connections, and the helpers. -/
def runSimulationLocals : List String :=
  ["working_fluid", "sink_return", "sink_supply", "source_in", "source_out",
   "defaults", "nw", "cc", "evap", "comp", "cond", "valve", "src_rf", "sink_rf",
   "src_sink", "snk_sink", "cond_ext", "src_waste", "snk_waste", "evap_ext",
   "c0", "c1", "c2", "c3", "c4", "c5", "c20", "c22", "c17", "c19", "c",
   "p_cond", "kA", "tmp", "path"]

/-- Python name resolution at the cleanup point of `run_simulation`: locals,
then module globals, then builtins. -/
def simResolves (n : String) : Bool :=
  runSimulationLocals.contains n || simulationModuleGlobals.contains n ||
    pyBuiltins.contains n

/-- The tail of `run_simulation` after `nw.solve("offdesign", ...)` returns
(simulation.py lines 97-110): first `os.remove(path)` executes (resolving the
name `os`), then the COP is computed (`cop = abs(q_cond) / w_comp if w_comp
else None`) and `(cop, results)` is returned. -/
def runSimulationTail (q_cond w_comp : ℚ) : PyOutcome (Option ℚ × ℚ × ℚ) :=
  if simResolves "os" then
    let cop := if w_comp ≠ 0 then some (|q_cond| / w_comp) else none
    .ok (cop, q_cond, w_comp)
  else .nameError "os"

/-- Names bound at module level in `src/simulation.py.py`: `import os` (line 3)
plus the imports of lines 4-12 and the module-level definitions. -/
def pypyModuleGlobals : List String :=
  ["os", "Network", "Condenser", "CycleCloser", "SimpleHeatExchanger", "Pump",
   "Sink", "Source", "Valve", "Drum", "HeatExchanger", "Compressor", "Splitter",
   "Merge", "Connection", "CharLine", "PropsSI", "NamedTemporaryFile",
   "fluid_defaults", "run_simulation"]

/-- Local names bound inside `run_simulation` of `src/simulation.py.py`
(lines 22-52) by the time control reaches `c17.set_attr(...)` on line 58. -/
def pypyLocals : List String :=
  ["working_fluid", "sink_return", "sink_supply", "source_in", "source_out",
   "defaults", "nw", "c_in", "cons_closer", "va", "cd", "rp", "cons",
   "c0", "c1", "c20", "c21", "c22", "c23", "p_cond"]

/-- Name resolution inside `run_simulation` of `src/simulation.py.py`. -/
def pypyResolves (n : String) : Bool :=
  pypyLocals.contains n || pypyModuleGlobals.contains n || pyBuiltins.contains n

/-- The continuation of `run_simulation` in `src/simulation.py.py` after
`nw.solve("design")` (lines 57-66): the statements reference, in evaluation
order, `c17`, `c19`, `cp1`, `cp2` and `hsp` before the function can return its
COP.  The first unresolvable reference raises `NameError`. -/
def pypyRunSimulationTail (q_out : ℚ) (pvals : String → ℚ) : PyOutcome (Option ℚ) :=
  if pypyResolves "c17" then
    if pypyResolves "c19" then
      if pypyResolves "cp1" then
        if pypyResolves "cp2" then
          if pypyResolves "hsp" then
            let w_in := pvals "cp1" + pvals "cp2" + pvals "rp" + pvals "hsp"
            .ok (if w_in ≠ 0 then some (|q_out| / w_in) else none)
          else .nameError "hsp"
        else .nameError "cp2"
      else .nameError "cp1"
    else .nameError "c19"
  else .nameError "c17"

end Sim

namespace Core

/-- Modelled from the spec: the stream state variables of spec section 3
(`pressure, enthalpy, temperature, vapor quality, mass flow`).  The
specification bookkeeping itself lives in the external TESPy library, not under
`src/`. -/
inductive StateProp
  | pressure
  | enthalpy
  | temperature
  | quality
  | massflow
deriving DecidableEq

/-- The thermodynamic state properties, of which the fluid provider supports at
most two independent fixed ones for a pure or fixed-composition fluid (spec
sections 3 and 4.1); mass flow is not one of them. -/
def isThermo : StateProp → Bool
  | .massflow => false
  | _ => true

/-- Modelled from the spec: a stream's specification flags — the list of
properties currently marked fixed. -/
structure Stream where
  fixedProps : List StateProp := []

/-- Modelled from the spec: the specification-error taxonomy of spec section 7
restricted to what the claims need. -/
inductive SpecError
  | overspecified
deriving DecidableEq

/-- Number of thermodynamic state properties currently fixed on a stream. -/
def thermoCount (s : Stream) : ℕ :=
  (s.fixedProps.filter (fun p => isThermo p)).length

/-- Modelled from the spec: `setSpecification(stream, property)` of spec section
4.1 — marks a property fixed, failing with `OverspecifiedError` when fixing it
would leave the stream with more independent thermodynamic properties fixed
than the two the fluid model supports. -/
def setSpecification (s : Stream) (p : StateProp) : Except SpecError Stream :=
  if p ∈ s.fixedProps then .ok s
  else if isThermo p = true ∧ 2 ≤ thermoCount s then .error .overspecified
  else .ok { fixedProps := p :: s.fixedProps }

/-- Apply a list of specifications in order, stopping at the first error. -/
def specifyAll : List StateProp → Stream → Except SpecError Stream
  | [], s => .ok s
  | p :: ps, s =>
      match setSpecification s p with
      | .ok s2 => specifyAll ps s2
      | .error e => .error e

/-- Modelled from the spec: the control flow of spec section 2 — specifications
are attached first, and the solver is only invoked on a successfully specified
stream.  A specification error therefore surfaces before any iteration runs. -/
def specifyThenSolve {α : Type} (ps : List StateProp) (solver : Stream → α) :
    Except SpecError α :=
  match specifyAll ps {} with
  | .ok s => .ok (solver s)
  | .error e => .error e

/-- Modelled from the spec: the characteristic snapshot of spec section 3 — the
design-point reference values that off-design characteristics are normalized
against (reference mass flow and the design-point efficiency). -/
structure CharSnapshot where
  m_ref : ℚ
  eta_design : ℚ
deriving DecidableEq

/-- Modelled from the spec: the state vector of the off-design efficiency
equation — current mass flow and current efficiency value. -/
structure SysState where
  m : ℚ
  eta : ℚ
deriving DecidableEq

/-- Design-mode residual vector: the compressor-efficiency specification
equation `eta - etaSpec` followed by the mode-independent equations (spec
sections 4.2 and 4.3). -/
def designResiduals (common : SysState → List ℚ) (etaSpec : ℚ) (x : SysState) :
    List ℚ :=
  (x.eta - etaSpec) :: common x

/-- Off-design residual vector: the efficiency equation is replaced by the
characteristic-driven one, `eta - eta_design * curve(m / m_ref)` (spec sections
4.2 and 4.5); the mode-independent equations are unchanged. -/
def offdesignResiduals (common : SysState → List ℚ) (curve : ℚ → ℚ)
    (snap : CharSnapshot) (x : SysState) : List ℚ :=
  (x.eta - snap.eta_design * curve (x.m / snap.m_ref)) :: common x

/-- Convergence check of spec section 4.4: every residual magnitude is within
the tolerance. -/
def convergedB (tol : ℚ) (res : List ℚ) : Bool :=
  res.all (fun r => |r| ≤ tol)

/-- Modelled from the spec: `solveDesign` captures the characteristic snapshot
from the converged design state (spec section 4.5). -/
def captureSnapshot (x : SysState) : CharSnapshot := ⟨x.m, x.eta⟩

/-- Modelled from the spec: the iteration loop of spec section 4.4, with the
spec-section-8 idempotence property built in — an already-converged iterate is
returned unchanged before any step is taken.  `none` models exhausting the
iteration cap. -/
def newtonLoop (res : SysState → List ℚ) (tol : ℚ) (step : SysState → SysState) :
    ℕ → SysState → Option SysState
  | 0, _ => none
  | fuel + 1, x => if convergedB tol (res x) then some x
                   else newtonLoop res tol step fuel (step x)

/-- Modelled from the spec: the off-design solve error taxonomy (spec section
4.5). -/
inductive SolveError
  | noDesignSnapshot
deriving DecidableEq

/-- Modelled from the spec: `solveOffDesign(topology, snapshot, specs)` of spec
section 4.5 — fails with `NoDesignSnapshotError` if no design snapshot exists,
otherwise re-solves the characteristic-substituted system from the warm start. -/
def solveOffDesign (common : SysState → List ℚ) (curve : ℚ → ℚ) (tol : ℚ)
    (step : SysState → SysState) (fuel : ℕ) (snapshot : Option CharSnapshot)
    (warm : SysState) : Except SolveError (Option SysState) :=
  match snapshot with
  | none => .error .noDesignSnapshot
  | some snap => .ok (newtonLoop (offdesignResiduals common curve snap) tol step fuel warm)

end Core

/-! ## Claim theorems -/

/-- Positivity of powers of ten. -/
lemma ten_rpow_pos (a : ℝ) : 0 < (10 : ℝ) ^ a := Real.rpow_pos_of_pos (by norm_num) a

/-- Strict monotonicity of powers of ten in the exponent. -/
lemma ten_rpow_lt_ten_rpow {a b : ℝ} (h : a < b) : (10 : ℝ) ^ a < (10 : ℝ) ^ b :=
  (Real.rpow_lt_rpow_left_iff (by norm_num)).mpr h

/-- A real natural-number power of ten is the monoid power. -/
lemma ten_rpow_ofNat (n : ℕ) : (10 : ℝ) ^ ((n : ℕ) : ℝ) = (10 : ℝ) ^ n :=
  Real.rpow_natCast 10 n

/-- A real negated natural-number power of ten is the inverse monoid power. -/
lemma ten_rpow_neg_ofNat (n : ℕ) : (10 : ℝ) ^ (-((n : ℕ) : ℝ)) = ((10 : ℝ) ^ n)⁻¹ := by
  rw [Real.rpow_neg (by norm_num), Real.rpow_natCast]

/-- Splitting a power of ten over a sum of exponents. -/
lemma ten_rpow_add_eq (a b c : ℝ) (h : a = b + c) :
    (10 : ℝ) ^ a = (10 : ℝ) ^ b * (10 : ℝ) ^ c := by
  rw [h, Real.rpow_add (by norm_num)]

/-- Splitting a power of ten over a difference of exponents. -/
lemma ten_rpow_sub_eq (a b c : ℝ) (h : a = b - c) :
    (10 : ℝ) ^ a = (10 : ℝ) ^ b / (10 : ℝ) ^ c := by
  rw [h, Real.rpow_sub (by norm_num)]

/-- The Antoine-branch value of the embedded saturation pressure at -10 degC for
propane: the exponent `15.726 - 1872.46 / (-25.16 + -10)` is about +69 because
the Celsius temperature makes the Antoine denominator negative. -/
lemma satp_propane_m10_eq :
    HpApp.calculate_saturation_pressure (-10) HpApp.Refrigerant.PROPANE =
      (10 : ℝ) ^ ((15.726 : ℝ) - 1872.46 / (-25.16 + -10)) * 0.00133322 := by
  simp only [HpApp.calculate_saturation_pressure, HpApp.REFRIGERANT_PROPERTIES]
  rw [if_neg (by simp), if_neg (by norm_num)]

/-- The Antoine-branch value of the embedded saturation pressure at 40 degC for
propane: the exponent is about -110. -/
lemma satp_propane_40_eq :
    HpApp.calculate_saturation_pressure 40 HpApp.Refrigerant.PROPANE =
      (10 : ℝ) ^ ((15.726 : ℝ) - 1872.46 / (-25.16 + 40)) * 0.00133322 := by
  simp only [HpApp.calculate_saturation_pressure, HpApp.REFRIGERANT_PROPERTIES]
  rw [if_neg (by simp), if_neg (by norm_num)]

/-- The computed evaporator pressure at -10 degC exceeds `10 ^ 65` bar. -/
lemma pe_lb : (10 : ℝ) ^ (65 : ℝ) < HpApp.calculate_saturation_pressure (-10)
    HpApp.Refrigerant.PROPANE := by
  rw [satp_propane_m10_eq,
    ten_rpow_add_eq 65 68 (-3) (by norm_num)]
  apply mul_lt_mul'' (ten_rpow_lt_ten_rpow (by norm_num)) ?_
    (le_of_lt (ten_rpow_pos _)) (le_of_lt (ten_rpow_pos _))
  rw [show (-3 : ℝ) = -((3 : ℕ) : ℝ) by norm_num, ten_rpow_neg_ofNat]
  norm_num

/-- The computed evaporator pressure at -10 degC is below `10 ^ 67` bar. -/
lemma pe_ub : HpApp.calculate_saturation_pressure (-10) HpApp.Refrigerant.PROPANE <
    (10 : ℝ) ^ (67 : ℝ) := by
  rw [satp_propane_m10_eq,
    ten_rpow_add_eq 67 69 (-2) (by norm_num)]
  apply mul_lt_mul'' (ten_rpow_lt_ten_rpow (by norm_num)) ?_
    (le_of_lt (ten_rpow_pos _)) (by norm_num)
  rw [show (-2 : ℝ) = -((2 : ℕ) : ℝ) by norm_num, ten_rpow_neg_ofNat]
  norm_num

/-- The computed condenser pressure at 40 degC is below `10 ^ (-112)` bar. -/
lemma pc_ub : HpApp.calculate_saturation_pressure 40 HpApp.Refrigerant.PROPANE <
    (10 : ℝ) ^ (-112 : ℝ) := by
  rw [satp_propane_40_eq,
    ten_rpow_add_eq (-112) (-110) (-2) (by norm_num)]
  apply mul_lt_mul'' (ten_rpow_lt_ten_rpow (by norm_num)) ?_
    (le_of_lt (ten_rpow_pos _)) (by norm_num)
  rw [show (-2 : ℝ) = -((2 : ℕ) : ℝ) by norm_num, ten_rpow_neg_ofNat]
  norm_num

/-- The computed condenser pressure at 40 degC exceeds `10 ^ (-114)` bar. -/
lemma pc_lb : (10 : ℝ) ^ (-114 : ℝ) < HpApp.calculate_saturation_pressure 40
    HpApp.Refrigerant.PROPANE := by
  rw [satp_propane_40_eq,
    ten_rpow_add_eq (-114) (-111) (-3) (by norm_num)]
  apply mul_lt_mul'' (ten_rpow_lt_ten_rpow (by norm_num)) ?_
    (le_of_lt (ten_rpow_pos _)) (le_of_lt (ten_rpow_pos _))
  rw [show (-3 : ℝ) = -((3 : ℕ) : ℝ) by norm_num, ten_rpow_neg_ofNat]
  norm_num

/-- The embedded vapor-branch enthalpy change for propane is negative whenever
the discharge temperature is below the (already negative Celsius) inlet
temperature and the compressibility terms satisfy the stated bounds: the
temperature term is negative and the departure term `R * T1 * (Z2 - Z1)`
multiplies a negative `T1` by a positive `Z2 - Z1`. -/
lemma enthalpy_change_propane_neg (T1 T2 P1 P2 : ℝ) (hT : T2 < T1) (hT1 : T1 < 0)
    (hZ1 : 2 < 0.08 * (P1 / 42.51) / ((T1 + 273.15) / (96.74 + 273.15)))
    (hZ2 : 0.08 * (P2 / 42.51) / ((T2 + 273.15) / (96.74 + 273.15)) < 2) :
    HpApp.calculate_enthalpy_change T1 T2 P1 P2 HpApp.Refrigerant.PROPANE true < 0 := by
  simp only [HpApp.calculate_enthalpy_change, HpApp.REFRIGERANT_PROPERTIES]
  rw [if_pos trivial]
  have hd1 : (1.67 : ℝ) * (T2 - T1) < 0 :=
    mul_neg_of_pos_of_neg (by norm_num) (by linarith)
  have hRT : (8.314 : ℝ) / 44.1 * T1 < 0 :=
    mul_neg_of_pos_of_neg (by norm_num) hT1
  have hzz : (0 : ℝ) < 1 - 0.08 * (P2 / 42.51) / ((T2 + 273.15) / (96.74 + 273.15)) -
      (1 - 0.08 * (P1 / 42.51) / ((T1 + 273.15) / (96.74 + 273.15))) := by linarith
  have hP := mul_neg_of_neg_of_pos hRT hzz
  linarith

/-- The compressor enthalpy term of `calculate_cop_real` at the claimed C1
operating point (evaporation -10 degC, condensation 40 degC, propane,
efficiency 0.8, zero sub-cooling and superheat) is negative: the mis-evaluated
Antoine expression makes the evaporator pressure about `10 ^ 66` bar and the
condenser pressure about `10 ^ (-113)` bar, so the pressure ratio is about
`10 ^ (-179)`, the polytropic discharge temperature is essentially absolute
zero, and both the temperature term and the departure term of the enthalpy
change are negative. -/
lemma C1_hcomp_neg :
    HpApp.calculate_enthalpy_change (-10 + 0)
      ((-10 + 0 + 273.15) *
          (HpApp.calculate_saturation_pressure 40 HpApp.Refrigerant.PROPANE * (1 + 0.02) /
            (HpApp.calculate_saturation_pressure (-10) HpApp.Refrigerant.PROPANE * (1 - 0.02))) ^
            ((1 + ((HpApp.REFRIGERANT_PROPERTIES HpApp.Refrigerant.PROPANE).cp_cv_ratio - 1) /
                  ((HpApp.REFRIGERANT_PROPERTIES HpApp.Refrigerant.PROPANE).cp_cv_ratio * 0.8) - 1) /
              (1 + ((HpApp.REFRIGERANT_PROPERTIES HpApp.Refrigerant.PROPANE).cp_cv_ratio - 1) /
                ((HpApp.REFRIGERANT_PROPERTIES HpApp.Refrigerant.PROPANE).cp_cv_ratio * 0.8))) -
        273.15)
      (HpApp.calculate_saturation_pressure (-10) HpApp.Refrigerant.PROPANE * (1 - 0.02))
      (HpApp.calculate_saturation_pressure 40 HpApp.Refrigerant.PROPANE * (1 + 0.02))
      HpApp.Refrigerant.PROPANE true < 0 := by
  have hE : ((1 + ((HpApp.REFRIGERANT_PROPERTIES HpApp.Refrigerant.PROPANE).cp_cv_ratio - 1) /
        ((HpApp.REFRIGERANT_PROPERTIES HpApp.Refrigerant.PROPANE).cp_cv_ratio * 0.8) - 1) /
      (1 + ((HpApp.REFRIGERANT_PROPERTIES HpApp.Refrigerant.PROPANE).cp_cv_ratio - 1) /
        ((HpApp.REFRIGERANT_PROPERTIES HpApp.Refrigerant.PROPANE).cp_cv_ratio * 0.8))) =
      65 / 517 := by
    norm_num [HpApp.REFRIGERANT_PROPERTIES]
  rw [hE]
  set pe := HpApp.calculate_saturation_pressure (-10) HpApp.Refrigerant.PROPANE with hpe_def
  set pc := HpApp.calculate_saturation_pressure 40 HpApp.Refrigerant.PROPANE with hpc_def
  have hpe_lb : (10 : ℝ) ^ (65 : ℝ) < pe := pe_lb
  have hpe_ub : pe < (10 : ℝ) ^ (67 : ℝ) := pe_ub
  have hpc_ub : pc < (10 : ℝ) ^ (-112 : ℝ) := pc_ub
  have hpc_lb : (10 : ℝ) ^ (-114 : ℝ) < pc := pc_lb
  have hpe_pos : (0 : ℝ) < pe := lt_trans (ten_rpow_pos _) hpe_lb
  have hpc_pos : (0 : ℝ) < pc := lt_trans (ten_rpow_pos _) hpc_lb
  set R := pc * (1 + 0.02) / (pe * (1 - 0.02)) with hR_def
  have hDpos : (0 : ℝ) < pe * (1 - 0.02) := mul_pos hpe_pos (by norm_num)
  have hNpos : (0 : ℝ) < pc * (1 + 0.02) := mul_pos hpc_pos (by norm_num)
  have hRpos : (0 : ℝ) < R := div_pos hNpos hDpos
  have hN_ub : pc * (1 + 0.02) < (10 : ℝ) ^ (-111 : ℝ) := by
    have e1 : (10 : ℝ) ^ (-111 : ℝ) = (10 : ℝ) ^ (-112 : ℝ) * 10 := by
      rw [ten_rpow_add_eq (-111) (-112) 1 (by norm_num), Real.rpow_one]
    have h1 : pc * (1 + 0.02) < (10 : ℝ) ^ (-112 : ℝ) * (1 + 0.02) :=
      mul_lt_mul_of_pos_right hpc_ub (by norm_num)
    have h2 : (10 : ℝ) ^ (-112 : ℝ) * (1 + 0.02) < (10 : ℝ) ^ (-112 : ℝ) * 10 :=
      mul_lt_mul_of_pos_left (by norm_num) (ten_rpow_pos _)
    rw [e1]
    exact lt_trans h1 h2
  have hD_lb : (10 : ℝ) ^ (64 : ℝ) < pe * (1 - 0.02) := by
    have e2 : (10 : ℝ) ^ (65 : ℝ) = (10 : ℝ) ^ (64 : ℝ) * 10 := by
      rw [ten_rpow_add_eq 65 64 1 (by norm_num), Real.rpow_one]
    have h1 : (10 : ℝ) ^ (65 : ℝ) * (1 - 0.02) < pe * (1 - 0.02) :=
      mul_lt_mul_of_pos_right hpe_lb (by norm_num)
    have h2 : (10 : ℝ) ^ (64 : ℝ) * 1 < (10 : ℝ) ^ (64 : ℝ) * (10 * (1 - 0.02)) :=
      mul_lt_mul_of_pos_left (by norm_num) (ten_rpow_pos _)
    rw [mul_one] at h2
    have h3 : (10 : ℝ) ^ (65 : ℝ) * (1 - 0.02) =
        (10 : ℝ) ^ (64 : ℝ) * (10 * (1 - 0.02)) := by rw [e2]; ring
    rw [h3] at h1
    exact lt_trans h2 h1
  have hR_ub : R < (10 : ℝ) ^ (-175 : ℝ) := by
    have step1 : R < (10 : ℝ) ^ (-111 : ℝ) / (pe * (1 - 0.02)) :=
      (div_lt_div_iff_of_pos_right hDpos).mpr hN_ub
    have step2 : (10 : ℝ) ^ (-111 : ℝ) / (pe * (1 - 0.02)) <
        (10 : ℝ) ^ (-111 : ℝ) / (10 : ℝ) ^ (64 : ℝ) :=
      div_lt_div_of_pos_left (ten_rpow_pos _) (ten_rpow_pos _) hD_lb
    have step3 : (10 : ℝ) ^ (-175 : ℝ) = (10 : ℝ) ^ (-111 : ℝ) / (10 : ℝ) ^ (64 : ℝ) :=
      ten_rpow_sub_eq _ _ _ (by norm_num)
    rw [step3]
    exact lt_trans step1 step2
  have hN_lb : (10 : ℝ) ^ (-114 : ℝ) < pc * (1 + 0.02) := by
    have h1 : pc * 1 < pc * (1 + 0.02) := mul_lt_mul_of_pos_left (by norm_num) hpc_pos
    rw [mul_one] at h1
    exact lt_trans hpc_lb h1
  have hD_ub : pe * (1 - 0.02) < (10 : ℝ) ^ (67 : ℝ) := by
    have h1 : pe * (1 - 0.02) < pe * 1 := mul_lt_mul_of_pos_left (by norm_num) hpe_pos
    rw [mul_one] at h1
    exact lt_trans h1 hpe_ub
  have hR_lb : (10 : ℝ) ^ (-181 : ℝ) < R := by
    have step1 : (10 : ℝ) ^ (-114 : ℝ) / (10 : ℝ) ^ (67 : ℝ) <
        (10 : ℝ) ^ (-114 : ℝ) / (pe * (1 - 0.02)) :=
      div_lt_div_of_pos_left (ten_rpow_pos _) hDpos hD_ub
    have step2 : (10 : ℝ) ^ (-114 : ℝ) / (pe * (1 - 0.02)) < R :=
      (div_lt_div_iff_of_pos_right hDpos).mpr hN_lb
    have step3 : (10 : ℝ) ^ (-181 : ℝ) = (10 : ℝ) ^ (-114 : ℝ) / (10 : ℝ) ^ (67 : ℝ) :=
      ten_rpow_sub_eq _ _ _ (by norm_num)
    rw [step3]
    exact lt_trans step1 step2
  have hRE_ub : R ^ ((65 : ℝ) / 517) < (10 : ℝ) ^ (-22 : ℝ) := by
    have h1 : R ^ ((65 : ℝ) / 517) < ((10 : ℝ) ^ (-175 : ℝ)) ^ ((65 : ℝ) / 517) :=
      Real.rpow_lt_rpow (le_of_lt hRpos) hR_ub (by norm_num)
    have h2 : ((10 : ℝ) ^ (-175 : ℝ)) ^ ((65 : ℝ) / 517) =
        (10 : ℝ) ^ ((-175 : ℝ) * (65 / 517)) :=
      (Real.rpow_mul (by norm_num) _ _).symm
    rw [h2] at h1
    exact lt_trans h1 (ten_rpow_lt_ten_rpow (by norm_num))
  have hRE_lb : (10 : ℝ) ^ (-23 : ℝ) < R ^ ((65 : ℝ) / 517) := by
    have h1 : ((10 : ℝ) ^ (-181 : ℝ)) ^ ((65 : ℝ) / 517) < R ^ ((65 : ℝ) / 517) :=
      Real.rpow_lt_rpow (le_of_lt (ten_rpow_pos _)) hR_lb (by norm_num)
    have h2 : ((10 : ℝ) ^ (-181 : ℝ)) ^ ((65 : ℝ) / 517) =
        (10 : ℝ) ^ ((-181 : ℝ) * (65 / 517)) :=
      (Real.rpow_mul (by norm_num) _ _).symm
    rw [h2] at h1
    exact lt_trans (ten_rpow_lt_ten_rpow (by norm_num)) h1
  have hREpos : (0 : ℝ) < R ^ ((65 : ℝ) / 517) := Real.rpow_pos_of_pos hRpos _
  have hK_ub : (-10 + 0 + 273.15) * R ^ ((65 : ℝ) / 517) < 1 := by
    have h1 : (-10 + 0 + 273.15 : ℝ) * R ^ ((65 : ℝ) / 517) <
        300 * (10 : ℝ) ^ (-22 : ℝ) :=
      mul_lt_mul'' (by norm_num) hRE_ub (by norm_num) (le_of_lt hREpos)
    have e001 : (10 : ℝ) ^ (-3 : ℝ) = 0.001 := by
      rw [show (-3 : ℝ) = -((3 : ℕ) : ℝ) by norm_num, ten_rpow_neg_ofNat]; norm_num
    have h22 : (10 : ℝ) ^ (-22 : ℝ) < 0.001 := by
      rw [← e001]; exact ten_rpow_lt_ten_rpow (by norm_num)
    have h2 : (300 : ℝ) * (10 : ℝ) ^ (-22 : ℝ) < 300 * 0.001 :=
      mul_lt_mul_of_pos_left h22 (by norm_num)
    exact lt_trans h1 (lt_trans h2 (by norm_num))
  have hK_lb : (10 : ℝ) ^ (-21 : ℝ) < (-10 + 0 + 273.15) * R ^ ((65 : ℝ) / 517) := by
    have h1 : (100 : ℝ) * (10 : ℝ) ^ (-23 : ℝ) <
        (-10 + 0 + 273.15 : ℝ) * R ^ ((65 : ℝ) / 517) :=
      mul_lt_mul'' (by norm_num) hRE_lb (by norm_num) (le_of_lt (ten_rpow_pos _))
    have h2 : (10 : ℝ) ^ (-21 : ℝ) = (10 : ℝ) ^ (2 : ℝ) * (10 : ℝ) ^ (-23 : ℝ) :=
      ten_rpow_add_eq _ _ _ (by norm_num)
    have h3 : (10 : ℝ) ^ (2 : ℝ) = 100 := by
      rw [show (2 : ℝ) = ((2 : ℕ) : ℝ) by norm_num, ten_rpow_ofNat]; norm_num
    rw [h2, h3]
    exact h1
  apply enthalpy_change_propane_neg
  · have h := hK_ub
    generalize R ^ ((65 : ℝ) / 517) = q at h ⊢
    linarith only [h]
  · norm_num
  · rw [lt_div_iff₀ (by norm_num : (0 : ℝ) < (-10 + 0 + 273.15) / (96.74 + 273.15))]
    have h65 : (100000 : ℝ) < (10 : ℝ) ^ (65 : ℝ) := by
      rw [show (65 : ℝ) = ((65 : ℕ) : ℝ) by norm_num, ten_rpow_ofNat]; norm_num
    have hpe_big : (100000 : ℝ) < pe := lt_trans h65 hpe_lb
    norm_num
    linarith only [hpe_big]
  · have hsub : ((-10 + 0 + 273.15 : ℝ) * R ^ ((65 : ℝ) / 517) - 273.15 + 273.15) =
        (-10 + 0 + 273.15) * R ^ ((65 : ℝ) / 517) := by ring
    rw [hsub]
    have hKpos : (0 : ℝ) < (-10 + 0 + 273.15) * R ^ ((65 : ℝ) / 517) :=
      lt_trans (ten_rpow_pos _) hK_lb
    rw [div_lt_iff₀ (div_pos hKpos (by norm_num))]
    have hpcK : pc < (-10 + 0 + 273.15) * R ^ ((65 : ℝ) / 517) :=
      lt_trans (lt_trans hpc_ub (ten_rpow_lt_ten_rpow (by norm_num))) hK_lb
    have hpcpos := hpc_pos
    generalize R ^ ((65 : ℝ) / 517) = q at hpcK ⊢
    norm_num at hpcK ⊢
    linarith only [hpcK, hpcpos]

/-- C1: at the claimed operating point (evaporator -10 degC, condenser 40 degC,
isentropic efficiency 0.8, zero sub-cooling/superheat, propane) the program's
`calculate_cop_real` returns `cop_heating = 0` — not a value strictly between 1
and the Carnot COP — while reporting the Carnot COP `313.15 / 50` (about 6.26).
The compressor enthalpy term is negative because the Antoine evaluation misuses
Celsius temperatures with base-10 exponentials, so the `h_comp > 0` guard fails
and the heating COP is set to 0. -/
theorem C1_claimed_cycle_cop_heating_is_zero :
    HpApp.copHeating (HpApp.calculate_cop_real
      { compressor_efficiency := 0.8, mechanical_efficiency := 0.95,
        heat_exchanger_effectiveness := 0.85, pressure_drop_ratio := 0.02 }
      (-10) 40 HpApp.Refrigerant.PROPANE 0 0) = some 0 ∧
    HpApp.copCarnot (HpApp.calculate_cop_real
      { compressor_efficiency := 0.8, mechanical_efficiency := 0.95,
        heat_exchanger_effectiveness := 0.85, pressure_drop_ratio := 0.02 }
      (-10) 40 HpApp.Refrigerant.PROPANE 0 0) = some (313.15 / 50) := by
  have hcrit : ¬ ((HpApp.REFRIGERANT_PROPERTIES HpApp.Refrigerant.PROPANE).critical_temp ≤
      (40 : ℝ)) := by
    norm_num [HpApp.REFRIGERANT_PROPERTIES]
  constructor
  · simp only [HpApp.calculate_cop_real]
    rw [if_neg hcrit]
    simp only [HpApp.copHeating, Option.some.injEq]
    rw [if_neg (not_lt.mpr (le_of_lt C1_hcomp_neg))]
    norm_num
  · simp only [HpApp.calculate_cop_real]
    rw [if_neg hcrit]
    simp only [HpApp.copCarnot, Option.some.injEq]
    norm_num

/-- Evaluating a real power of a power of two with an exactly-divisible rational
exponent. -/
lemma two_pow_rpow (L m : ℕ) (q : ℝ) (h : (L : ℝ) * q = (m : ℝ)) :
    ((2 : ℝ) ^ L) ^ q = (2 : ℝ) ^ m := by
  rw [← Real.rpow_natCast 2 L, ← Real.rpow_mul (by norm_num : (0:ℝ) ≤ 2), h,
    Real.rpow_natCast]

/-- C2 counterexample: the compressor energy balance of `calculate_cop_real`
does not equal the ideal isentropic enthalpy rise divided by the efficiency.
At inlet 0 degC, inlet pressure 1 bar, outlet pressure `2 ^ 58421` bar (chosen
so that both rational exponents evaluate to exact powers of two), propane and
efficiency 0.8, the code's polytropic-estimate rise is `1.67 * 273.15 *
(2 ^ 7345 - 1)` while the isentropic rise over 0.8 is
`1.67 * 273.15 * (2 ^ 6721 - 1) / 0.8` — different values. -/
theorem C2_compressor_balance_not_isentropic_over_eta :
    HpApp.compressor_enthalpy_rise 0.8 0 1 (2 ^ 58421) HpApp.Refrigerant.PROPANE ≠
      HpApp.isentropic_enthalpy_rise 0 1 (2 ^ 58421) HpApp.Refrigerant.PROPANE / 0.8 := by
  have hexpA : ((1 + ((1.13 : ℝ) - 1) / (1.13 * 0.8) - 1) /
      (1 + (1.13 - 1) / (1.13 * 0.8))) = 65 / 517 := by norm_num
  have hexpB : (((1.13 : ℝ) - 1) / 1.13) = 13 / 113 := by norm_num
  have hA : ((2 : ℝ) ^ (58421 : ℕ)) ^ ((65 : ℝ) / 517) = (2 : ℝ) ^ (7345 : ℕ) :=
    two_pow_rpow 58421 7345 (65 / 517) (by norm_num)
  have hB : ((2 : ℝ) ^ (58421 : ℕ)) ^ ((13 : ℝ) / 113) = (2 : ℝ) ^ (6721 : ℕ) :=
    two_pow_rpow 58421 6721 (13 / 113) (by norm_num)
  have h4 : (2 : ℝ) ^ (6721 : ℕ) * 4 ≤ (2 : ℝ) ^ (7345 : ℕ) := by
    rw [show (2 : ℝ) ^ (6721 : ℕ) * 4 = 2 ^ (6723 : ℕ) by
      rw [show (6723 : ℕ) = 6721 + 2 from rfl, pow_add]; norm_num]
    exact pow_le_pow_right₀ (by norm_num) (by norm_num)
  have h5 : (1 : ℝ) ≤ (2 : ℝ) ^ (6721 : ℕ) := one_le_pow₀ (by norm_num)
  simp only [HpApp.compressor_enthalpy_rise, HpApp.isentropic_enthalpy_rise,
    HpApp.calculate_enthalpy_change, HpApp.REFRIGERANT_PROPERTIES, div_one, if_true]
  rw [hexpA, hexpB, hA, hB]
  rw [ne_eq, eq_div_iff (by norm_num : (0.8 : ℝ) ≠ 0)]
  intro h
  nlinarith [h4, h5]

/-- C2 amended: the compressor energy balance in `calculate_cop_real` is a
polytropic discharge-temperature estimate, not "isentropic rise / efficiency":
for every positive efficiency the computed rise equals the enthalpy change at
the discharge temperature `T1_K * (p_out / p_in) ^ ((gamma - 1) / (gamma * eta
+ gamma - 1))`, the exponent coming from `n = 1 + (gamma - 1) / (gamma * eta)`;
no mass-flow or power product is computed. -/
theorem C2_amended_polytropic_discharge (eta T1 p_in p_out : ℝ)
    (r : HpApp.Refrigerant) (heta : 0 < eta) :
    HpApp.compressor_enthalpy_rise eta T1 p_in p_out r =
      HpApp.calculate_enthalpy_change T1
        ((T1 + 273.15) * (p_out / p_in) ^
          (((HpApp.REFRIGERANT_PROPERTIES r).cp_cv_ratio - 1) /
            ((HpApp.REFRIGERANT_PROPERTIES r).cp_cv_ratio * eta +
              (HpApp.REFRIGERANT_PROPERTIES r).cp_cv_ratio - 1)) - 273.15)
        p_in p_out r true := by
  simp only [HpApp.compressor_enthalpy_rise]
  set g := (HpApp.REFRIGERANT_PROPERTIES r).cp_cv_ratio with hgdef
  have hg : 1 < g := by
    rw [hgdef]; cases r <;> norm_num [HpApp.REFRIGERANT_PROPERTIES]
  have hge : 0 < g * eta := mul_pos (lt_trans one_pos hg) heta
  have hne : g * eta ≠ 0 := ne_of_gt hge
  have hg0 : g ≠ 0 := ne_of_gt (lt_trans one_pos hg)
  have he0 : eta ≠ 0 := ne_of_gt heta
  have hden : g * eta + g - 1 ≠ 0 := ne_of_gt (by nlinarith)
  have h1 : 1 + (g - 1) / (g * eta) = (g * eta + g - 1) / (g * eta) := by
    field_simp
    ring
  have hexp : (1 + (g - 1) / (g * eta) - 1) / (1 + (g - 1) / (g * eta)) =
      (g - 1) / (g * eta + g - 1) := by
    rw [add_sub_cancel_left, h1, div_div_eq_mul_div, div_mul_cancel₀ _ hne]
  rw [hexp]

/-- Witness for the amended C2 at efficiency 0.8, inlet 20 degC, pressure ratio 2,
propane. -/
theorem C2_amended_polytropic_discharge_witness :
    HpApp.compressor_enthalpy_rise 0.8 20 1 2 HpApp.Refrigerant.PROPANE =
      HpApp.calculate_enthalpy_change 20
        ((20 + 273.15) * ((2 : ℝ) / 1) ^
          (((HpApp.REFRIGERANT_PROPERTIES HpApp.Refrigerant.PROPANE).cp_cv_ratio - 1) /
            ((HpApp.REFRIGERANT_PROPERTIES HpApp.Refrigerant.PROPANE).cp_cv_ratio * 0.8 +
              (HpApp.REFRIGERANT_PROPERTIES HpApp.Refrigerant.PROPANE).cp_cv_ratio - 1)) - 273.15)
        1 2 HpApp.Refrigerant.PROPANE true :=
  C2_amended_polytropic_discharge 0.8 20 1 2 HpApp.Refrigerant.PROPANE (by norm_num)

/-- C3 counterexample: two out-of-range fluid-property queries that do NOT fail
but silently return substituted values: propane at -300 degC (below any valid
range, below absolute zero) returns the constant 0.001 bar, and CO2 at 40 degC
(above its 31.06 degC critical point, outside the saturation curve) returns the
critical pressure 73.77 bar. -/
theorem C3_out_of_range_returns_clamped_value :
    HpApp.calculate_saturation_pressure (-300) HpApp.Refrigerant.PROPANE = 0.001 ∧
    HpApp.calculate_saturation_pressure 40 HpApp.Refrigerant.CO2 = 73.77 := by
  constructor
  · simp only [HpApp.calculate_saturation_pressure]
    rw [if_neg (by simp), if_pos (by norm_num)]
  · simp only [HpApp.calculate_saturation_pressure, HpApp.REFRIGERANT_PROPERTIES]
    rw [if_pos ⟨trivial, by norm_num⟩, if_pos (by rw [sub_nonpos, le_div_iff₀ (by norm_num)]; norm_num)]

/-- C3 amended: `calculate_saturation_pressure` silently clamps out-of-range
queries instead of failing: every query below -200 degC returns the substituted
constant 0.001 bar (for every refrigerant), and every CO2 query at or above the
critical temperature returns the critical pressure; no error is raised, so no
solver divergence can be triggered. -/
theorem C3_amended_out_of_range_clamped :
    (∀ (r : HpApp.Refrigerant) (t : ℝ), t < -200 →
        HpApp.calculate_saturation_pressure t r = 0.001) ∧
    (∀ t : ℝ, 31.06 ≤ t →
        HpApp.calculate_saturation_pressure t HpApp.Refrigerant.CO2 = 73.77) := by
  constructor
  · intro r t h
    simp only [HpApp.calculate_saturation_pressure]
    rw [if_neg (by rintro ⟨_, h25⟩; linarith), if_pos h]
  · intro t h
    simp only [HpApp.calculate_saturation_pressure, HpApp.REFRIGERANT_PROPERTIES]
    rw [if_pos ⟨trivial, by linarith⟩,
      if_pos (by rw [sub_nonpos, le_div_iff₀ (by norm_num)]; linarith)]

/-- Witness for the amended C3: ammonia at -250 degC and CO2 at 50 degC. -/
theorem C3_amended_out_of_range_clamped_witness :
    HpApp.calculate_saturation_pressure (-250) HpApp.Refrigerant.AMMONIA = 0.001 ∧
    HpApp.calculate_saturation_pressure 50 HpApp.Refrigerant.CO2 = 73.77 :=
  ⟨C3_amended_out_of_range_clamped.1 _ _ (by norm_num),
   C3_amended_out_of_range_clamped.2 _ (by norm_num)⟩

/-- C4: running an off-design solve whose compressor characteristic curve is the
constant 1, with boundary conditions (the mode-independent equations) unchanged
and the snapshot captured from the converged design state, converges immediately
back to the design solution: the off-design solve warm-started at the design
state returns exactly that state. -/
theorem C4_flat_curve_reproduces_design (common : Core.SysState → List ℚ)
    (curve : ℚ → ℚ) (etaSpec tol : ℚ) (xd : Core.SysState)
    (step : Core.SysState → Core.SysState) (fuel : ℕ)
    (hflat : ∀ y, curve y = 1)
    (hconv : Core.convergedB tol (Core.designResiduals common etaSpec xd) = true) :
    Core.solveOffDesign common curve tol step (fuel + 1)
      (some (Core.captureSnapshot xd)) xd = Except.ok (some xd) := by
  simp only [Core.convergedB, Core.designResiduals, List.all_cons, Bool.and_eq_true,
    decide_eq_true_eq] at hconv
  have htol : (0 : ℚ) ≤ tol := le_trans (abs_nonneg _) hconv.1
  have h0 : Core.offdesignResiduals common curve (Core.captureSnapshot xd) xd
      = 0 :: common xd := by
    simp [Core.offdesignResiduals, Core.captureSnapshot, hflat]
  simp [Core.solveOffDesign, Core.newtonLoop, h0, Core.convergedB, htol, hconv.2]

/-- Witness for C4 at a concrete design point. -/
theorem C4_flat_curve_reproduces_design_witness :
    Core.solveOffDesign (fun _ => []) (fun _ => 1) 0 id 1
      (some (Core.captureSnapshot ⟨1, 0.8⟩)) ⟨1, 0.8⟩ = Except.ok (some ⟨1, 0.8⟩) :=
  C4_flat_curve_reproduces_design (fun _ => []) (fun _ => 1) 0.8 0 ⟨1, 0.8⟩ id 0
    (fun _ => rfl) (by norm_num [Core.convergedB, Core.designResiduals, List.all_cons])

/-- C5: fixing three pairwise-distinct thermodynamic state properties on one
stream always fails with the overspecification error, and the solver — over
which the statement is universally quantified — is never consulted. -/
theorem C5_overspecification_rejected {α : Type} (a b c : Core.StateProp)
    (solver : Core.Stream → α) (hab : a ≠ b) (hac : a ≠ c) (hbc : b ≠ c)
    (ha : Core.isThermo a = true) (hb : Core.isThermo b = true)
    (hc : Core.isThermo c = true) :
    Core.specifyThenSolve [a, b, c] solver = Except.error Core.SpecError.overspecified := by
  have h1 : Core.setSpecification {} a = .ok ⟨[a]⟩ := by
    simp [Core.setSpecification, Core.thermoCount]
  have h2 : Core.setSpecification ⟨[a]⟩ b = .ok ⟨[b, a]⟩ := by
    simp [Core.setSpecification, Core.thermoCount, hab.symm, ha]
  have h3 : Core.setSpecification ⟨[b, a]⟩ c = .error .overspecified := by
    simp [Core.setSpecification, Core.thermoCount, hac.symm, hbc.symm, ha, hb, hc]
  simp [Core.specifyThenSolve, Core.specifyAll, h1, h2, h3]

/-- Witness for C5: pressure, temperature and enthalpy all fixed on one stream. -/
theorem C5_overspecification_rejected_witness :
    Core.specifyThenSolve
      [Core.StateProp.pressure, Core.StateProp.temperature, Core.StateProp.enthalpy]
      (fun s => s.fixedProps.length) = Except.error Core.SpecError.overspecified :=
  C5_overspecification_rejected _ _ _ _ (by decide) (by decide) (by decide)
    (by decide) (by decide) (by decide)

/-- C6: an off-design solve invoked with no design snapshot fails with
`NoDesignSnapshotError`, for every system, curve, tolerance, step function,
iteration budget and warm-start state — in particular it never iterates. -/
theorem C6_offdesign_requires_snapshot (common : Core.SysState → List ℚ)
    (curve : ℚ → ℚ) (tol : ℚ) (step : Core.SysState → Core.SysState) (fuel : ℕ)
    (warm : Core.SysState) :
    Core.solveOffDesign common curve tol step fuel none warm =
      Except.error Core.SolveError.noDesignSnapshot := rfl

/-- The list minimum bounds every member. -/
lemma listMin_le_of_mem {y : ℚ} {xp : List ℚ} (h : y ∈ xp) : App.listMin xp ≤ y := by
  induction xp with
  | nil => cases h
  | cons a t ih =>
    cases t with
    | nil => simp only [List.mem_singleton] at h; simp [App.listMin, h]
    | cons b t2 =>
      rw [List.mem_cons] at h
      rcases h with rfl | h
      · simp [App.listMin]
      · exact le_trans (by simp [App.listMin]) (ih h)

/-- Every member bounds the list maximum from below. -/
lemma le_listMax_of_mem {y : ℚ} {xp : List ℚ} (h : y ∈ xp) : y ≤ App.listMax xp := by
  induction xp with
  | nil => cases h
  | cons a t ih =>
    cases t with
    | nil => simp only [List.mem_singleton] at h; simp [App.listMax, h]
    | cons b t2 =>
      rw [List.mem_cons] at h
      rcases h with rfl | h
      · simp [App.listMax]
      · exact le_trans (ih h) (by simp [App.listMax])

/-- On a sorted nonempty list the minimum is the head. -/
lemma listMin_eq_head {a : ℚ} {t : List ℚ} (h : (a :: t).Sorted (· < ·)) :
    App.listMin (a :: t) = a := by
  induction t generalizing a with
  | nil => rfl
  | cons b t2 ih =>
    rw [List.sorted_cons] at h
    rw [show App.listMin (a :: b :: t2) = min a (App.listMin (b :: t2)) from rfl,
      ih h.2]
    exact min_eq_left (le_of_lt (h.1 b (by simp)))

/-- The list maximum is attained on a nonempty list. -/
lemma listMax_mem {a : ℚ} {t : List ℚ} : App.listMax (a :: t) ∈ a :: t := by
  induction t generalizing a with
  | nil => simp [App.listMax]
  | cons b t2 ih =>
    rw [show App.listMax (a :: b :: t2) = max a (App.listMax (b :: t2)) from rfl]
    rcases max_choice a (App.listMax (b :: t2)) with hc | hc
    · rw [hc]; exact List.mem_cons_self a _
    · rw [hc]; exact List.mem_cons_of_mem _ ih

/-- On a sorted list ending in `xn` the maximum is `xn`. -/
lemma listMax_eq_last {xi : List ℚ} {xn : ℚ} (h : (xi ++ [xn]).Sorted (· < ·)) :
    App.listMax (xi ++ [xn]) = xn := by
  have h1 : xn ≤ App.listMax (xi ++ [xn]) := le_listMax_of_mem (by simp)
  have h2 : App.listMax (xi ++ [xn]) ≤ xn := by
    have hmax : App.listMax (xi ++ [xn]) ∈ xi ++ [xn] := by
      cases xi with
      | nil => exact listMax_mem
      | cons c ci => exact listMax_mem
    rw [List.mem_append] at hmax
    rcases hmax with hm | hm
    · rcases List.pairwise_append.mp h with ⟨-, -, hrel⟩
      exact le_of_lt (hrel _ hm xn (by simp))
    · rw [List.mem_singleton] at hm; rw [hm]
  exact le_antisymm h2 h1

/-- Unfolding `interpPoints` on the first segment when the clipped input lies
below its right endpoint. -/
lemma interpPoints_if {x X1 X2 Y1 Y2 : ℚ} {XT YT2 : List ℚ} (h : x ≤ X2) :
    App.interpPoints x (X1 :: X2 :: XT) (Y1 :: Y2 :: YT2) =
      Y1 + (Y2 - Y1) * (x - X1) / (X2 - X1) := by
  simp only [App.interpPoints]
  rw [if_pos h]

/-- Unfolding `interpPoints` past the first segment. -/
lemma interpPoints_step {x X1 X2 Y1 : ℚ} {XT YT : List ℚ} (hYT : YT ≠ [])
    (h : ¬ x ≤ X2) :
    App.interpPoints x (X1 :: X2 :: XT) (Y1 :: YT) =
      App.interpPoints x (X2 :: XT) YT := by
  cases YT with
  | nil => exact absurd rfl hYT
  | cons Y2 YT2 =>
    simp only [App.interpPoints]
    rw [if_neg h]

/-- `interpPoints` evaluated exactly at the head knot returns the head value. -/
lemma interpPoints_head {x0 y0 : ℚ} {xt yt : List ℚ}
    (hsort : (x0 :: xt).Sorted (· < ·)) :
    App.interpPoints x0 (x0 :: xt) (y0 :: yt) = y0 := by
  cases xt with
  | nil => rfl
  | cons x2 xt2 =>
    cases yt with
    | nil => rfl
    | cons y2 yt2 =>
      rw [List.sorted_cons] at hsort
      rw [interpPoints_if (le_of_lt (hsort.1 x2 (by simp)))]
      simp

/-- `interpPoints` evaluated exactly at the last knot returns the last value. -/
lemma interpPoints_last {xn yn : ℚ} {xp fp : List ℚ} (hsort : xp.Sorted (· < ·))
    (hlen : xp.length = fp.length) (hx : xp.getLast? = some xn)
    (hy : fp.getLast? = some yn) :
    App.interpPoints xn xp fp = yn := by
  induction xp generalizing fp with
  | nil => simp at hx
  | cons x1 xt ih =>
    cases xt with
    | nil =>
      cases fp with
      | nil => simp at hlen
      | cons y1 yt =>
        cases yt with
        | nil =>
          rw [List.getLast?_singleton] at hx hy
          have hx1 : x1 = xn := by injection hx
          have hy1 : y1 = yn := by injection hy
          rw [← hx1, ← hy1]
          rfl
        | cons _ _ => simp at hlen
    | cons x2 xt2 =>
      cases fp with
      | nil => simp at hlen
      | cons y1 yt =>
        cases yt with
        | nil => simp at hlen
        | cons y2 yt2 =>
          rw [List.sorted_cons] at hsort
          rw [List.getLast?_cons_cons] at hx
          cases xt2 with
          | nil =>
            rw [List.getLast?_singleton] at hx
            have hx2 : x2 = xn := by injection hx
            cases yt2 with
            | nil =>
              rw [List.getLast?_cons_cons, List.getLast?_singleton] at hy
              have hy2 : y2 = yn := by injection hy
              have h12 : x1 < x2 := hsort.1 x2 (by simp)
              rw [← hx2, ← hy2, interpPoints_if le_rfl, mul_div_assoc,
                div_self (ne_of_gt (sub_pos.mpr h12)), mul_one]
              ring
            | cons _ _ => simp at hlen
          | cons x3 xt3 =>
            have hmem : xn ∈ x3 :: xt3 := by
              rw [List.getLast?_cons_cons] at hx
              exact List.mem_of_mem_getLast? (by rw [hx]; exact rfl)
            have h2n : x2 < xn := by
              have := hsort.2
              rw [List.sorted_cons] at this
              exact this.1 xn hmem
            rw [interpPoints_step (by simp) (not_le.mpr h2n)]
            refine ih hsort.2 (by simpa using hlen) hx ?_
            rw [List.getLast?_cons_cons] at hy
            exact hy

/-- `interpPoints` on a bracketing segment is the straight-line interpolation of
its endpoints. -/
lemma interpPoints_bracket {x x1 x2 y1 y2 : ℚ} {pre : List ℚ} :
    ∀ {preY suf sufY : List ℚ},
      ((pre ++ x1 :: x2 :: suf).Sorted (· < ·)) →
      pre.length = preY.length → x1 ≤ x → x ≤ x2 →
      App.interpPoints x (pre ++ x1 :: x2 :: suf) (preY ++ y1 :: y2 :: sufY) =
        y1 + (y2 - y1) * (x - x1) / (x2 - x1) := by
  induction pre with
  | nil =>
    intro preY suf sufY hsort hlen hx1 hx2
    have hpY : preY = [] := List.length_eq_zero.mp hlen.symm
    subst hpY
    simp only [List.nil_append]
    exact interpPoints_if hx2
  | cons a pre' ih =>
    intro preY suf sufY hsort hlen hx1 hx2
    cases preY with
    | nil => simp at hlen
    | cons b preY' =>
      simp only [List.cons_append] at hsort ⊢
      rw [List.sorted_cons] at hsort
      cases pre' with
      | nil =>
        have hpY : preY' = [] := by simpa using hlen
        subst hpY
        simp only [List.nil_append] at hsort ⊢
        by_cases hc : x ≤ x1
        · have hxx : x = x1 := le_antisymm hc hx1
          subst hxx
          have hax : a < x := hsort.1 x (by simp)
          rw [interpPoints_if hc, mul_div_assoc, div_self (ne_of_gt (sub_pos.mpr hax)),
            mul_one]
          simp
        · rw [interpPoints_step (by simp) hc]
          exact ih hsort.2 rfl hx1 hx2
      | cons c pre'' =>
        cases preY' with
        | nil => simp at hlen
        | cons d preY'' =>
          simp only [List.cons_append] at hsort ⊢
          have hcx : c < x1 := by
            have h1 := hsort.2
            rw [List.sorted_cons] at h1
            exact h1.1 x1 (by simp)
          rw [interpPoints_step (by simp) (not_le.mpr (lt_of_lt_of_le hcx hx1))]
          exact @ih (d :: preY'') suf sufY hsort.2 (by simpa using hlen) hx1 hx2

/-- C7: `_interp` clamps its input to the tabulated domain and interpolates
inside it: on a strictly increasing curve, inputs at or below the smallest
tabulated point return the first tabulated value, inputs at or above the
largest tabulated point return the last tabulated value, and an input bracketed
by two adjacent tabulated points returns the straight-line (monotone)
interpolation of those two tabulated values. -/
theorem C7_curve_lookup_clamps_and_interpolates (xp fp : List ℚ) (x : ℚ)
    (hsort : xp.Sorted (· < ·)) (hlen : xp.length = fp.length) :
    (∀ x0 xt y0 yt, xp = x0 :: xt → fp = y0 :: yt → x ≤ x0 →
        App.interp x xp fp = y0) ∧
    (∀ xi xn yi yn, xp = xi ++ [xn] → fp = yi ++ [yn] → xn ≤ x →
        App.interp x xp fp = yn) ∧
    (∀ pre x1 x2 suf preY y1 y2 sufY,
        xp = pre ++ x1 :: x2 :: suf → fp = preY ++ y1 :: y2 :: sufY →
        pre.length = preY.length → x1 ≤ x → x ≤ x2 →
        App.interp x xp fp = y1 + (y2 - y1) * (x - x1) / (x2 - x1)) := by
  refine ⟨?_, ?_, ?_⟩
  · intro x0 xt y0 yt hxp hfp hx
    subst hxp; subst hfp
    have hmin : App.listMin (x0 :: xt) = x0 := listMin_eq_head hsort
    have hclip : App.np_clip x (App.listMin (x0 :: xt)) (App.listMax (x0 :: xt)) = x0 := by
      rw [App.np_clip, hmin, max_eq_right hx,
        min_eq_left (le_listMax_of_mem (List.mem_cons_self x0 xt))]
    rw [App.interp, hclip]
    exact interpPoints_head hsort
  · intro xi xn yi yn hxp hfp hx
    subst hxp; subst hfp
    have hmax : App.listMax (xi ++ [xn]) = xn := listMax_eq_last hsort
    have hclip : App.np_clip x (App.listMin (xi ++ [xn])) (App.listMax (xi ++ [xn])) = xn := by
      rw [App.np_clip, hmax,
        max_eq_left (le_trans (listMin_le_of_mem (by simp)) hx), min_eq_right hx]
    rw [App.interp, hclip]
    exact interpPoints_last hsort hlen (List.getLast?_concat xi)
      (List.getLast?_concat yi)
  · intro pre x1 x2 suf preY y1 y2 sufY hxp hfp hplen hx1 hx2
    subst hxp; subst hfp
    have hclip : App.np_clip x (App.listMin (pre ++ x1 :: x2 :: suf))
        (App.listMax (pre ++ x1 :: x2 :: suf)) = x := by
      rw [App.np_clip,
        max_eq_left (le_trans (listMin_le_of_mem (by simp)) hx1),
        min_eq_left (le_trans hx2 (le_listMax_of_mem (by simp)))]
    rw [App.interp, hclip]
    exact interpPoints_bracket hsort hplen hx1 hx2

/-- Witness for C7 on the built-in `Solid_Default` compressor map: pressure
ratio 1 (below the curve) returns 0.68, pressure ratio 4 (above the curve)
returns 0.76, and pressure ratio 1.35 (inside the first segment) returns the
straight-line interpolation of 0.68 and 0.73. -/
theorem C7_curve_lookup_clamps_and_interpolates_witness :
    App.interp 1 App.solidDefaultPR App.solidDefaultETA = 0.68 ∧
    App.interp 4 App.solidDefaultPR App.solidDefaultETA = 0.76 ∧
    App.interp 1.35 App.solidDefaultPR App.solidDefaultETA =
      0.68 + (0.73 - 0.68) * (1.35 - 1.2) / (1.5 - 1.2) := by
  refine ⟨?_, ?_, ?_⟩
  · exact (C7_curve_lookup_clamps_and_interpolates App.solidDefaultPR App.solidDefaultETA 1
      (by norm_num [App.solidDefaultPR, List.sorted_cons]) (by rfl)).1
      1.2 [1.5, 2.0, 2.5, 3.0, 3.5] 0.68 [0.73, 0.78, 0.80, 0.79, 0.76]
      rfl rfl (by norm_num)
  · exact (C7_curve_lookup_clamps_and_interpolates App.solidDefaultPR App.solidDefaultETA 4
      (by norm_num [App.solidDefaultPR, List.sorted_cons]) (by rfl)).2.1
      [1.2, 1.5, 2.0, 2.5, 3.0] 3.5 [0.68, 0.73, 0.78, 0.80, 0.79] 0.76
      rfl rfl (by norm_num)
  · exact (C7_curve_lookup_clamps_and_interpolates App.solidDefaultPR App.solidDefaultETA 1.35
      (by norm_num [App.solidDefaultPR, List.sorted_cons]) (by rfl)).2.2
      [] 1.2 1.5 [2.0, 2.5, 3.0, 3.5] [] 0.68 0.73 [0.78, 0.80, 0.79, 0.76]
      rfl rfl rfl (by norm_num) (by norm_num)

/-- C8: `src/simulation.py` never imports `os`, so the name `os` does not
resolve at the `os.remove(path)` cleanup call, and every execution of the tail
of `run_simulation` that follows the off-design solve ends in `NameError`
instead of returning the COP results. -/
theorem C8_run_simulation_os_nameerror :
    Sim.simResolves "os" = false ∧
    ∀ q_cond w_comp : ℚ,
      Sim.runSimulationTail q_cond w_comp = Sim.PyOutcome.nameError "os" := by
  refine ⟨by decide, fun q w => ?_⟩
  simp [Sim.runSimulationTail, show Sim.simResolves "os" = false by decide]

/-- C9: in `src/simulation.py.py` none of the names `c17`, `c19`, `cp1`, `cp2`,
`hsp` is ever bound, so the continuation after the design solve raises
`NameError` (at the first reference, `c17`) for every input, and the function
never returns a COP. -/
theorem C9_pypy_undefined_names :
    ((["c17", "c19", "cp1", "cp2", "hsp"] : List String).all
        (fun n => !(Sim.pypyResolves n))) = true ∧
    ∀ (q_out : ℚ) (pvals : String → ℚ),
      Sim.pypyRunSimulationTail q_out pvals = Sim.PyOutcome.nameError "c17" := by
  refine ⟨by decide, fun q pvals => ?_⟩
  simp [Sim.pypyRunSimulationTail, show Sim.pypyResolves "c17" = false by decide]

/-- C10: the KPI block of `HeatPumpTESPy.run` guards the COP division: whenever
the total input power `w_comp_kW + w_pumps_kW` is not strictly positive the
`cop` field is `none`, and otherwise it is exactly
`q_out_kW / (w_comp_kW + w_pumps_kW)`. -/
theorem C10_cop_division_guard (Q_cons : ℚ) (P_cp1 : Option ℚ) (two_stage : Bool)
    (P_cp2 : ℚ) (P_rp P_hsp : Option ℚ) :
    ((App.computeKPIs Q_cons P_cp1 two_stage P_cp2 P_rp P_hsp).w_comp_kW +
        (App.computeKPIs Q_cons P_cp1 two_stage P_cp2 P_rp P_hsp).w_pumps_kW ≤ 0 →
      (App.computeKPIs Q_cons P_cp1 two_stage P_cp2 P_rp P_hsp).cop = none) ∧
    (0 < (App.computeKPIs Q_cons P_cp1 two_stage P_cp2 P_rp P_hsp).w_comp_kW +
        (App.computeKPIs Q_cons P_cp1 two_stage P_cp2 P_rp P_hsp).w_pumps_kW →
      (App.computeKPIs Q_cons P_cp1 two_stage P_cp2 P_rp P_hsp).cop =
        some ((App.computeKPIs Q_cons P_cp1 two_stage P_cp2 P_rp P_hsp).q_out_kW /
          ((App.computeKPIs Q_cons P_cp1 two_stage P_cp2 P_rp P_hsp).w_comp_kW +
            (App.computeKPIs Q_cons P_cp1 two_stage P_cp2 P_rp P_hsp).w_pumps_kW))) := by
  dsimp only [App.computeKPIs]
  constructor
  · intro h
    rw [if_neg (not_lt.mpr h)]
  · intro h
    rw [if_pos h]

/-- Witness for C10 at concrete powers (230 kW duty, 80 kW compressors,
3 kW pumps). -/
theorem C10_cop_division_guard_witness :
    (App.computeKPIs 230000 (some 50000) true 30000 (some 1000) (some 2000)).cop =
      some ((App.computeKPIs 230000 (some 50000) true 30000 (some 1000) (some 2000)).q_out_kW /
        ((App.computeKPIs 230000 (some 50000) true 30000 (some 1000) (some 2000)).w_comp_kW +
          (App.computeKPIs 230000 (some 50000) true 30000 (some 1000) (some 2000)).w_pumps_kW)) :=
  (C10_cop_division_guard 230000 (some 50000) true 30000 (some 1000) (some 2000)).2
    (by norm_num [App.computeKPIs])
